import Mathlib

/-!
Verification of the SpinningCubes OpenXR example
(`examples/SpinningCubes/main.c`).

The development shallowly embeds the program's core:
 * the transform library (`Mat4_*`, lines 38-103) as functions over
   row-major 4x4 real matrices (`Fin 4 → Fin 4 → ℝ`, entry `m[i*4+j]`
   of the C array becomes entry `i j`);
 * the session/swapchain/frame machinery (`CreateSwapchains`,
   `HandleXREvents`, `RenderFrame`, `Cleanup`, lines 415-708 and the
   main loop, lines 806-816) as explicit state passing over `XRState`,
   with the compositor's answers (success/failure of each OpenXR call,
   the frame timing token, per-view acquire/wait results) supplied by
   oracle records, and every OpenXR call emitted into a trace of
   `XRCall` values so that call-ordering and call-counting invariants
   can be stated.
-/

namespace SpinningCubes

/-! ### Transform library (main.c lines 30-103)

The C code stores a matrix as `float m[16]` in row-major order and
multiplies with `result.m[i*4+j] += a.m[i*4+k] * b.m[k*4+j]`, i.e. row
vectors times matrices.  We model `m` as `Fin 4 → Fin 4 → ℝ` where the
C entry `m[i*4+j]` is `m i j`. -/

/-- Row-major 4x4 real matrix, C `Mat4` (main.c line 31). -/
abbrev Mat4 := Fin 4 → Fin 4 → ℝ

noncomputable section TransformLibrary

/-- C `Mat4_Identity` (main.c line 38). -/
def Mat4_Identity : Mat4 :=
  ![![1, 0, 0, 0], ![0, 1, 0, 0], ![0, 0, 1, 0], ![0, 0, 0, 1]]

/-- C `Mat4_Multiply` (main.c line 42): `result.m[i*4+j] = Σ_k a.m[i*4+k] * b.m[k*4+j]`. -/
def Mat4_Multiply (a b : Mat4) : Mat4 :=
  fun i j => ∑ k : Fin 4, a i k * b k j

/-- C `Mat4_Translation` (main.c line 54): translation sits in row 3. -/
def Mat4_Translation (x y z : ℝ) : Mat4 :=
  ![![1, 0, 0, 0], ![0, 1, 0, 0], ![0, 0, 1, 0], ![x, y, z, 1]]

/-- C `Mat4_Scale` (main.c line 58). -/
def Mat4_Scale (s : ℝ) : Mat4 :=
  ![![s, 0, 0, 0], ![0, s, 0, 0], ![0, 0, s, 0], ![0, 0, 0, 1]]

/-- C `Mat4_RotationY` (main.c line 62). -/
def Mat4_RotationY (rad : ℝ) : Mat4 :=
  ![![Real.cos rad, 0, -Real.sin rad, 0],
    ![0, 1, 0, 0],
    ![Real.sin rad, 0, Real.cos rad, 0],
    ![0, 0, 0, 1]]

/-- C `Mat4_RotationX` (main.c line 67). -/
def Mat4_RotationX (rad : ℝ) : Mat4 :=
  ![![1, 0, 0, 0],
    ![0, Real.cos rad, Real.sin rad, 0],
    ![0, -Real.sin rad, Real.cos rad, 0],
    ![0, 0, 0, 1]]

/-- C `Mat4_Projection` (main.c line 92): asymmetric projection from an
XR field of view given by four half-angles. -/
def Mat4_Projection (angleLeft angleRight angleUp angleDown nearZ farZ : ℝ) : Mat4 :=
  let tL := Real.tan angleLeft
  let tR := Real.tan angleRight
  let tU := Real.tan angleUp
  let tD := Real.tan angleDown
  let w := tR - tL
  let h := tU - tD
  ![![2 / w, 0, 0, 0],
    ![0, 2 / h, 0, 0],
    ![(tR + tL) / w, (tU + tD) / h, -farZ / (farZ - nearZ), -1],
    ![0, 0, -(farZ * nearZ) / (farZ - nearZ), 0]]

/-- Per-cube model matrix exactly as composed in `RenderFrame`
(main.c lines 653-663): `rot = animTime * speed`, then
`model = ((scale * rotY(rot)) * rotX(rot*0.7)) * translate(pos)`. -/
def cubeModelMatrix (animTime speed scaleVal px py pz : ℝ) : Mat4 :=
  Mat4_Multiply
    (Mat4_Multiply
      (Mat4_Multiply (Mat4_Scale scaleVal) (Mat4_RotationY (animTime * speed)))
      (Mat4_RotationX (animTime * speed * 0.7)))
    (Mat4_Translation px py pz)

/-- Cube positions (main.c line 162). -/
def cubePositions : List (ℝ × ℝ × ℝ) :=
  [(0, 0, -2), (-1.2, 0.4, -2.5), (1.2, 0.3, -2.5), (-0.6, -0.4, -1.8), (0.6, -0.3, -1.8)]

/-- Cube scales (main.c line 169). -/
def cubeScales : List ℝ := [1, 0.6, 0.6, 0.5, 0.5]

/-- Cube rotation speeds (main.c line 170). -/
def cubeSpeeds : List ℝ := [1, 1.5, -1.2, 2, -0.8]

end TransformLibrary

/-- C8: for every animation-clock value `t` and every scene instance
(speed, scale, position), the model matrix
`scale * rotateY(t*speed) * rotateX(0.7*t*speed) * translate(pos)`
built by `RenderFrame` under the row-vector convention has its
translation components (row-major entries `m[12]`, `m[13]`, `m[14]`,
i.e. row 3) equal exactly to the instance's position, regardless of
`t`; in particular for the first cube (speed 1, scale 1, position
(0,0,-2)) the translation row is (0,0,-2). -/
theorem cubeModelMatrix_translation_row (t speed scaleVal px py pz : ℝ) :
    cubeModelMatrix t speed scaleVal px py pz 3 0 = px ∧
    cubeModelMatrix t speed scaleVal px py pz 3 1 = py ∧
    cubeModelMatrix t speed scaleVal px py pz 3 2 = pz ∧
    cubeModelMatrix t speed scaleVal px py pz 3 3 = 1 := by
  refine ⟨?_, ?_, ?_, ?_⟩ <;>
    simp [cubeModelMatrix, Mat4_Multiply, Mat4_Scale, Mat4_RotationY,
      Mat4_RotationX, Mat4_Translation, Fin.sum_univ_four,
      Matrix.cons_val_zero, Matrix.cons_val_one, Matrix.head_cons,
      Matrix.cons_val_two, Matrix.cons_val_three]

/-- C9: for a symmetric field of view (`angleLeft = -angleRight`,
`angleUp = -angleDown`) and `0 < nearZ < farZ`, the projection matrix
has zero off-center skew terms: the `(tR+tL)/w` entry (row-major
`m[8]`, entry (2,0)) and the `(tU+tD)/h` entry (`m[9]`, entry (2,1))
are both zero, so the matrix degenerates to a standard symmetric
perspective matrix. -/
theorem Mat4_Projection_symmetric_skew_zero
    (angleLeft angleRight angleUp angleDown nearZ farZ : ℝ)
    (hL : angleLeft = -angleRight) (hU : angleUp = -angleDown)
    (hn : 0 < nearZ) (hf : nearZ < farZ) :
    Mat4_Projection angleLeft angleRight angleUp angleDown nearZ farZ 2 0 = 0 ∧
    Mat4_Projection angleLeft angleRight angleUp angleDown nearZ farZ 2 1 = 0 := by
  subst hL hU
  constructor <;>
    simp [Mat4_Projection, Real.tan_neg, Matrix.cons_val_zero,
      Matrix.cons_val_one, Matrix.head_cons, Matrix.cons_val_two,
      Matrix.cons_val_three, Matrix.vecHead, Matrix.vecTail]

/-- Witness for C9 at the concrete symmetric FOV with half-angle π/6
horizontally and π/8 vertically, near plane 0.05 and far plane 100
(the near/far values used by `RenderFrame`, main.c line 623). -/
theorem Mat4_Projection_symmetric_skew_zero_witness :
    (-(Real.pi / 6) = -(Real.pi / 6)) ∧ (-(Real.pi / 8) = -(Real.pi / 8)) ∧
    ((0 : ℝ) < 0.05) ∧ ((0.05 : ℝ) < 100) ∧
    (Mat4_Projection (-(Real.pi / 6)) (Real.pi / 6) (-(Real.pi / 8)) (Real.pi / 8)
        0.05 100 2 0 = 0 ∧
      Mat4_Projection (-(Real.pi / 6)) (Real.pi / 6) (-(Real.pi / 8)) (Real.pi / 8)
        0.05 100 2 1 = 0) :=
  ⟨rfl, rfl, by norm_num, by norm_num,
    Mat4_Projection_symmetric_skew_zero (-(Real.pi / 6)) (Real.pi / 6)
      (-(Real.pi / 8)) (Real.pi / 8) 0.05 100 rfl rfl (by norm_num) (by norm_num)⟩

/-! ### Operational model of the session / swapchain / frame machinery

Global mutable state (main.c lines 131-170) relevant to the claims.
A swapchain-pool entry is abstracted to whether `SDL_CreateGPUXRSwapchain`
succeeded for that view (the handle, image array and image count carry
no further information used by the claims); `vrSwapchains = none`
models the NULL pointer, `some entries` the `SDL_calloc`ed array whose
slot `i` is `true` once view `i`'s swapchain was created. -/

/-- The program's global state (main.c lines 131-158). -/
structure XRState where
  xrSessionRunning : Bool
  xrShouldQuit : Bool
  viewCount : Nat
  vrSwapchains : Option (List Bool)
  pipelineCreated : Bool
  animTime : ℚ
  deriving DecidableEq

/-- State at program start (main.c lines 135-158: statics zero-initialized). -/
def initialState : XRState :=
  { xrSessionRunning := false, xrShouldQuit := false, viewCount := 0,
    vrSwapchains := none, pipelineCreated := false, animTime := 0 }

/-- One OpenXR call emitted by the program, recorded in a trace. -/
inductive XRCall where
  | beginSession
  | endSession
  | createSwapchain (view : Nat)
  | destroySwapchain (view : Nat)
  | waitFrame
  | beginFrame
  | locateViews (displayTime : Int)
  | acquireImage (view : Nat)
  | waitImage (view : Nat)
  | releaseImage (view : Nat)
  | endFrame (displayTime : Int) (blendMode : Nat) (layers : List (List Bool))
  deriving DecidableEq

/-- `XR_ENVIRONMENT_BLEND_MODE_OPAQUE`, the fixed blend mode passed to
`xrEndFrame` (main.c line 701). -/
def XR_ENVIRONMENT_BLEND_MODE_OPAQUE : Nat := 1

/-- Compositor answers consumed by one `CreateSwapchains` run:
the two `xrEnumerateViewConfigurationViews` calls (count, then fill),
the enumerated view count, per-view `SDL_CreateGPUXRSwapchain`
success, and success of the one-time pipeline/buffer creation. -/
structure SwapchainOracle where
  enumCountOk : Bool
  enumFillOk : Bool
  numViews : Nat
  createOk : Nat → Bool
  pipelineOk : Bool

/-- The per-view creation loop of `CreateSwapchains` (main.c lines
443-488) over a list of view indices: each iteration calls
`SDL_CreateGPUXRSwapchain`; on success the pool slot is filled and the
loop continues, on failure the function returns 1 immediately, leaving
the remaining (calloc-zeroed) slots `false`.  Returns the final pool
entries, the emitted calls, and the success flag. -/
def createViewsGo (o : SwapchainOracle) : List Nat → List Bool × List XRCall × Bool
  | [] => ([], [], true)
  | i :: rest =>
    if o.createOk i then
      let r := createViewsGo o rest
      (true :: r.1, XRCall.createSwapchain i :: r.2.1, r.2.2)
    else
      (List.replicate (i :: rest).length false, [XRCall.createSwapchain i], false)

/-- C `CreateSwapchains` (main.c lines 415-503).  Mirrors the source:
the count-then-fill view enumeration (either call failing returns 1
early), the `SDL_calloc` of the pool, the per-view creation loop, and
the one-time pipeline/buffer creation guarded by
`viewCount > 0 && pipeline == NULL`.  Returns the new state, the
emitted calls, and `true` for return value 0.  Note that no failure
path frees or destroys already-created pool entries. -/
def CreateSwapchains (st : XRState) (o : SwapchainOracle) : XRState × List XRCall × Bool :=
  if !o.enumCountOk then (st, [], false)
  else if !o.enumFillOk then ({ st with viewCount := o.numViews }, [], false)
  else
    let n := o.numViews
    let r := createViewsGo o (List.range n)
    let st1 := { st with viewCount := n, vrSwapchains := some r.1 }
    if !r.2.2 then (st1, r.2.1, false)
    else if decide (0 < n) && !st.pipelineCreated then
      if o.pipelineOk then ({ st1 with pipelineCreated := true }, r.2.1, true)
      else (st1, r.2.1, false)
    else (st1, r.2.1, true)

/-- Session-state kinds distinguished by `HandleXREvents`
(main.c lines 517-544). -/
inductive SessionStateKind where
  | ready
  | stopping
  | exiting
  | lossPending
  | otherState
  deriving DecidableEq

/-- One polled compositor event record (main.c lines 509-553). -/
inductive XREvent where
  | sessionStateChanged (state : SessionStateKind)
  | instanceLossPending
  | otherEvent
  deriving DecidableEq

/-- Compositor answers consumed when handling one event:
`xrBeginSession` success and the `CreateSwapchains` oracle (both used
only on a ready event). -/
structure EventOracle where
  beginSessionOk : Bool
  sc : SwapchainOracle

/-- The body of the `HandleXREvents` poll loop for one event
(main.c lines 510-553).  On `READY` the program always issues
`xrBeginSession`; on its success it sets the running flag and calls
`CreateSwapchains`, setting the quit flag if that fails.  On
`STOPPING` it issues `xrEndSession` and clears the running flag.
`EXITING`, `LOSS_PENDING` and instance-loss set the quit flag. -/
def handleEvent (st : XRState) (ev : XREvent) (o : EventOracle) : XRState × List XRCall :=
  match ev with
  | .sessionStateChanged .ready =>
    if o.beginSessionOk then
      let st1 := { st with xrSessionRunning := true }
      let r := CreateSwapchains st1 o.sc
      if r.2.2 then (r.1, XRCall.beginSession :: r.2.1)
      else ({ r.1 with xrShouldQuit := true }, XRCall.beginSession :: r.2.1)
    else (st, [XRCall.beginSession])
  | .sessionStateChanged .stopping =>
    ({ st with xrSessionRunning := false }, [XRCall.endSession])
  | .sessionStateChanged .exiting => ({ st with xrShouldQuit := true }, [])
  | .sessionStateChanged .lossPending => ({ st with xrShouldQuit := true }, [])
  | .sessionStateChanged .otherState => (st, [])
  | .instanceLossPending => ({ st with xrShouldQuit := true }, [])
  | .otherEvent => (st, [])

/-- C `HandleXREvents` (main.c lines 505-557): drain the event queue to
empty, handling each event in order.  The list holds the events the
compositor reports this tick, each with its oracle. -/
def HandleXREvents : XRState → List (XREvent × EventOracle) → XRState × List XRCall
  | st, [] => (st, [])
  | st, (ev, o) :: rest =>
    let r1 := handleEvent st ev o
    let r2 := HandleXREvents r1.1 rest
    (r2.1, r1.2 ++ r2.2)

/-- Compositor answers consumed by one `RenderFrame` run: `xrWaitFrame`
success, the frame timing token (`shouldRender`,
`predictedDisplayTime`), `xrBeginFrame` success, `xrLocateViews`
success, and per-view `xrAcquireSwapchainImage` /
`xrWaitSwapchainImage` results. -/
structure FrameOracle where
  waitFrameOk : Bool
  shouldRender : Bool
  predictedDisplayTime : Int
  beginFrameOk : Bool
  locateOk : Bool
  acquireOk : Nat → Bool
  waitImageOk : Nat → Bool

/-- The per-view body of `RenderFrame`'s render loop (main.c lines
600-687): acquire; on acquire failure `continue` (no wait, no
release); otherwise wait; on wait failure release and `continue`;
otherwise render, release, and populate this view's composition-layer
entry.  Returns the emitted calls and whether the entry was
populated. -/
def renderView (o : FrameOracle) (i : Nat) : List XRCall × Bool :=
  if !o.acquireOk i then ([XRCall.acquireImage i], false)
  else if !o.waitImageOk i then
    ([XRCall.acquireImage i, XRCall.waitImage i, XRCall.releaseImage i], false)
  else
    ([XRCall.acquireImage i, XRCall.waitImage i, XRCall.releaseImage i], true)

/-- The render loop over a list of view indices, concatenating each
view's calls and collecting the composition-layer slots (the
`SDL_calloc`ed `projViews` array: slot `i` is `true` iff view `i`'s
entry was populated). -/
def renderViews (o : FrameOracle) : List Nat → List XRCall × List Bool
  | [] => ([], [])
  | i :: rest =>
    let r1 := renderView o i
    let r2 := renderViews o rest
    (r1.1 ++ r2.1, r1.2 :: r2.2)

/-- C `RenderFrame` (main.c lines 559-708).  Mirrors the source's
control flow: return if not running; `xrWaitFrame`, returning on
failure; `xrBeginFrame`, returning on failure; if
`shouldRender && viewCount > 0 && vrSwapchains != NULL` then advance
the animation clock by 0.011, `xrLocateViews` (on failure jump to
`endFrame` with layerCount 0), else run the per-view loop and submit
one layer; finally `xrEndFrame` with the predicted display time, the
opaque blend mode, and the gathered layers. -/
def RenderFrame (st : XRState) (o : FrameOracle) : XRState × List XRCall :=
  if !st.xrSessionRunning then (st, [])
  else if !o.waitFrameOk then (st, [XRCall.waitFrame])
  else if !o.beginFrameOk then (st, [XRCall.waitFrame, XRCall.beginFrame])
  else if o.shouldRender && decide (0 < st.viewCount) && st.vrSwapchains.isSome then
    let st1 := { st with animTime := st.animTime + 11 / 1000 }
    if !o.locateOk then
      (st1, [XRCall.waitFrame, XRCall.beginFrame,
             XRCall.locateViews o.predictedDisplayTime,
             XRCall.endFrame o.predictedDisplayTime XR_ENVIRONMENT_BLEND_MODE_OPAQUE []])
    else
      let r := renderViews o (List.range st.viewCount)
      (st1, [XRCall.waitFrame, XRCall.beginFrame,
             XRCall.locateViews o.predictedDisplayTime] ++ r.1 ++
            [XRCall.endFrame o.predictedDisplayTime XR_ENVIRONMENT_BLEND_MODE_OPAQUE [r.2]])
  else
    (st, [XRCall.waitFrame, XRCall.beginFrame,
          XRCall.endFrame o.predictedDisplayTime XR_ENVIRONMENT_BLEND_MODE_OPAQUE []])

/-- Input to one main-loop iteration: the compositor events drained by
`HandleXREvents` this tick, and the frame oracle for `RenderFrame`. -/
structure TickInput where
  events : List (XREvent × EventOracle)
  frame : FrameOracle

/-- One iteration of the main loop body (main.c lines 814-815):
`HandleXREvents()` then `RenderFrame()`. -/
def tick (st : XRState) (ti : TickInput) : XRState × List XRCall :=
  let r1 := HandleXREvents st ti.events
  let r2 := RenderFrame r1.1 ti.frame
  (r2.1, r1.2 ++ r2.2)

/-- The main loop (main.c lines 806-816): while the quit flag is clear,
run one tick.  The quit flag is checked only at the loop head, so a
tick that sets it mid-iteration still completes. -/
def runTicks : XRState → List TickInput → XRState × List XRCall
  | st, [] => (st, [])
  | st, ti :: rest =>
    if st.xrShouldQuit then (st, [])
    else
      let r1 := tick st ti
      let r2 := runTicks r1.1 rest
      (r2.1, r1.2 ++ r2.2)

/-- The swapchain part of C `Cleanup` (main.c lines 728-735): if the
pool pointer is non-NULL, destroy every pool slot whose swapchain
handle is non-zero, iterating `i` over `0..viewCount-1`. -/
def Cleanup (st : XRState) : List XRCall :=
  match st.vrSwapchains with
  | none => []
  | some entries =>
    (List.range st.viewCount).filterMap fun i =>
      if entries.getD i false then some (XRCall.destroySwapchain i) else none

/-! ### Trace predicates -/

/-- Is this call an acquire/wait/release on view `i`? -/
def isViewCall (i : Nat) : XRCall → Bool
  | .acquireImage j => j == i
  | .waitImage j => j == i
  | .releaseImage j => j == i
  | _ => false

/-- Is this call `xrAcquireSwapchainImage` on view `i`? -/
def isAcquireCall (i : Nat) : XRCall → Bool
  | .acquireImage j => j == i
  | _ => false

/-- Is this call `xrEndFrame`? -/
def isEndFrameCall : XRCall → Bool
  | .endFrame _ _ _ => true
  | _ => false

/-- Is this call `xrBeginFrame`? -/
def isBeginFrameCall : XRCall → Bool
  | .beginFrame => true
  | _ => false

/-- Is this call `xrBeginSession` or `xrEndSession`? -/
def isSessionCall : XRCall → Bool
  | .beginSession => true
  | .endSession => true
  | _ => false

/-- Arguments of the first `xrEndFrame` call in a trace. -/
def firstEndFrame : List XRCall → Option (Int × Nat × List (List Bool))
  | [] => none
  | .endFrame dt b ls :: _ => some (dt, b, ls)
  | _ :: rest => firstEndFrame rest

/-! ### Frame-level lemmas -/

theorem renderView_calls (o : FrameOracle) (i : Nat) :
    (renderView o i).1 =
      if o.acquireOk i then
        [XRCall.acquireImage i, XRCall.waitImage i, XRCall.releaseImage i]
      else [XRCall.acquireImage i] := by
  unfold renderView
  by_cases h : o.acquireOk i <;> by_cases h2 : o.waitImageOk i <;> simp [h, h2]

theorem renderView_filter_view (o : FrameOracle) (i j : Nat) :
    (renderView o j).1.filter (isViewCall i) =
      if j = i then (renderView o j).1 else [] := by
  rw [renderView_calls]
  by_cases hji : j = i
  · subst hji
    by_cases h : o.acquireOk j <;> simp [h, isViewCall]
  · by_cases h : o.acquireOk j <;> simp [h, hji, isViewCall]

theorem renderViews_filter_view (o : FrameOracle) (i : Nat) : ∀ l : List Nat,
    (renderViews o l).1.filter (isViewCall i) =
      ((l.filter (fun j => j == i)).map (fun j => (renderView o j).1)).flatten
  | [] => by simp [renderViews]
  | j :: rest => by
    by_cases hji : j = i <;>
      simp [renderViews, List.filter_append, renderViews_filter_view o i rest,
        renderView_filter_view, hji]

theorem range_filter_beq (i : Nat) : ∀ n : Nat,
    (List.range n).filter (fun j => j == i) = if i < n then [i] else []
  | 0 => by simp
  | n + 1 => by
    rw [List.range_succ, List.filter_append, range_filter_beq i n]
    rcases Nat.lt_trichotomy i n with h | h | h
    · have h1 : i < n + 1 := Nat.lt_succ_of_lt h
      have h2 : ¬(n = i) := by omega
      simp [h, h1, h2]
    · subst h
      simp
    · have h1 : ¬(i < n) := by omega
      have h2 : ¬(i < n + 1) := by omega
      have h3 : ¬(n = i) := by omega
      simp [h1, h2, h3]

/-- C1: for every tick and view index, the filtered subtrace of calls
touching that view's swapchain is: empty when the render loop does not
run or the view index is out of range; exactly
`[acquire, wait, release]` when the acquire succeeds (so every
successful acquire is followed by exactly one wait and exactly one
release, in order, on both the wait-failure and the render exit
paths); and exactly `[acquire]` when the acquire fails (no wait, no
release). -/
theorem RenderFrame_acquire_release_paired (st : XRState) (o : FrameOracle) (i : Nat) :
    (RenderFrame st o).2.filter (isViewCall i) =
      if st.xrSessionRunning && o.waitFrameOk && o.beginFrameOk && o.shouldRender
          && decide (0 < st.viewCount) && st.vrSwapchains.isSome && o.locateOk
          && decide (i < st.viewCount) then
        (if o.acquireOk i then
          [XRCall.acquireImage i, XRCall.waitImage i, XRCall.releaseImage i]
        else [XRCall.acquireImage i])
      else [] := by
  unfold RenderFrame
  by_cases hrun : st.xrSessionRunning <;>
  by_cases hwait : o.waitFrameOk <;>
  by_cases hbegin : o.beginFrameOk <;>
  by_cases hsr : o.shouldRender <;>
  by_cases hvc : 0 < st.viewCount <;>
  by_cases hsw : st.vrSwapchains.isSome <;>
  by_cases hloc : o.locateOk <;>
  by_cases hi : i < st.viewCount <;>
  simp [hrun, hwait, hbegin, hsr, hvc, hsw, hloc, hi, isViewCall,
    List.filter_append, renderViews_filter_view, range_filter_beq, renderView_calls]

/-- C10: the shared animation clock is advanced, by exactly the fixed
increment 0.011 and exactly once per tick, precisely when the session
is running, wait-frame and begin-frame both succeed, the timing
token's should-render flag is set, and the swapchain pool exists
(non-NULL pointer with a positive view count); in every other case —
including a tick aborted by wait/begin failure or skipped because
should-render is false — it is unchanged.  The condition does not
mention the view-locate result: a tick whose locate call fails has
already advanced the clock and does not roll it back. -/
theorem RenderFrame_animTime_advance (st : XRState) (o : FrameOracle) :
    (RenderFrame st o).1.animTime =
      if st.xrSessionRunning && o.waitFrameOk && o.beginFrameOk && o.shouldRender
          && decide (0 < st.viewCount) && st.vrSwapchains.isSome then
        st.animTime + 11 / 1000
      else st.animTime := by
  unfold RenderFrame
  by_cases hrun : st.xrSessionRunning <;>
  by_cases hwait : o.waitFrameOk <;>
  by_cases hbegin : o.beginFrameOk <;>
  by_cases hsr : o.shouldRender <;>
  by_cases hvc : 0 < st.viewCount <;>
  by_cases hsw : st.vrSwapchains.isSome <;>
  by_cases hloc : o.locateOk <;>
  simp [hrun, hwait, hbegin, hsr, hvc, hsw, hloc]

/-- Consecutive `RenderFrame` ticks (the main loop restricted to frame
orchestration, with the session left untouched in between). -/
def runFrames : XRState → List FrameOracle → XRState × List XRCall
  | st, [] => (st, [])
  | st, o :: rest =>
    let r := RenderFrame st o
    let r2 := runFrames r.1 rest
    (r2.1, r.2 ++ r2.2)

theorem RenderFrame_waitFrame_fail (st : XRState) (o : FrameOracle)
    (hrun : st.xrSessionRunning = true) (hwait : o.waitFrameOk = false) :
    RenderFrame st o = (st, [XRCall.waitFrame]) := by
  simp [RenderFrame, hrun, hwait]

theorem runFrames_all_waitFail (st : XRState)
    (hrun : st.xrSessionRunning = true) :
    ∀ os : List FrameOracle, (∀ x ∈ os, x.waitFrameOk = false) →
      runFrames st os = (st, List.replicate os.length XRCall.waitFrame)
  | [], _ => by simp [runFrames]
  | o :: rest, hfail => by
    have h1 : RenderFrame st o = (st, [XRCall.waitFrame]) :=
      RenderFrame_waitFrame_fail st o hrun (hfail o (by simp))
    have h2 := runFrames_all_waitFail st hrun rest (fun x hx => hfail x (by simp [hx]))
    simp [runFrames, h1, h2, List.replicate_succ]

theorem renderView_countP_endFrame (o : FrameOracle) (i : Nat) :
    (renderView o i).1.countP isEndFrameCall = 0 := by
  rw [renderView_calls]
  by_cases h : o.acquireOk i <;> simp [h, isEndFrameCall, List.countP_cons]

theorem renderView_countP_beginFrame (o : FrameOracle) (i : Nat) :
    (renderView o i).1.countP isBeginFrameCall = 0 := by
  rw [renderView_calls]
  by_cases h : o.acquireOk i <;> simp [h, isBeginFrameCall, List.countP_cons]

theorem renderViews_countP_endFrame (o : FrameOracle) : ∀ l : List Nat,
    (renderViews o l).1.countP isEndFrameCall = 0
  | [] => by simp [renderViews]
  | i :: rest => by
    simp [renderViews, List.countP_append, renderView_countP_endFrame,
      renderViews_countP_endFrame o rest]

theorem renderViews_countP_beginFrame (o : FrameOracle) : ∀ l : List Nat,
    (renderViews o l).1.countP isBeginFrameCall = 0
  | [] => by simp [renderViews]
  | i :: rest => by
    simp [renderViews, List.countP_append, renderView_countP_beginFrame,
      renderViews_countP_beginFrame o rest]

theorem RenderFrame_protocol_counts (st : XRState) (o : FrameOracle)
    (hrun : st.xrSessionRunning = true) (hwait : o.waitFrameOk = true)
    (hbegin : o.beginFrameOk = true) :
    (RenderFrame st o).2.countP isBeginFrameCall = 1 ∧
    (RenderFrame st o).2.countP isEndFrameCall = 1 := by
  unfold RenderFrame
  by_cases hsr : o.shouldRender <;>
  by_cases hvc : 0 < st.viewCount <;>
  by_cases hsw : st.vrSwapchains.isSome <;>
  by_cases hloc : o.locateOk <;>
  simp [hrun, hwait, hbegin, hsr, hvc, hsw, hloc, List.countP_cons,
    List.countP_append, isBeginFrameCall, isEndFrameCall,
    renderViews_countP_endFrame, renderViews_countP_beginFrame]

/-- C3: in the running state, a tick whose wait-frame fails is aborted
with no begin-frame and no end-frame (its trace is exactly the failed
wait-frame call, and the state is untouched); any number of
consecutive wait-frame-failing ticks make zero begin-frame and zero
end-frame calls; and the next tick whose wait-frame succeeds proceeds:
if its begin-frame fails the tick stops there (no end-frame),
otherwise exactly one begin-frame and one end-frame are made. -/
theorem waitFrame_failure_skips_ticks (st : XRState) (os : List FrameOracle)
    (o : FrameOracle) (hrun : st.xrSessionRunning = true)
    (hfail : ∀ x ∈ os, x.waitFrameOk = false) (hwait : o.waitFrameOk = true) :
    (∀ x ∈ os, RenderFrame st x = (st, [XRCall.waitFrame])) ∧
    (runFrames st os).2.countP isBeginFrameCall = 0 ∧
    (runFrames st os).2.countP isEndFrameCall = 0 ∧
    (runFrames st os).1 = st ∧
    (o.beginFrameOk = false →
      (RenderFrame (runFrames st os).1 o).2 = [XRCall.waitFrame, XRCall.beginFrame]) ∧
    (o.beginFrameOk = true →
      (RenderFrame (runFrames st os).1 o).2.countP isBeginFrameCall = 1 ∧
      (RenderFrame (runFrames st os).1 o).2.countP isEndFrameCall = 1) := by
  have hrf := runFrames_all_waitFail st hrun os hfail
  refine ⟨fun x hx => RenderFrame_waitFrame_fail st x hrun (hfail x hx), ?_, ?_, ?_, ?_, ?_⟩
  · rw [hrf]
    simp [List.countP_eq_zero, List.mem_replicate, isBeginFrameCall]
  · rw [hrf]
    simp [List.countP_eq_zero, List.mem_replicate, isEndFrameCall]
  · rw [hrf]
  · intro hb
    rw [hrf]
    simp [RenderFrame, hrun, hwait, hb]
  · intro hb
    rw [hrf]
    exact RenderFrame_protocol_counts st o hrun hwait hb

/-- Witness oracles and state for the frame-protocol claims: a running
session with a two-view pool, an all-success frame oracle, and a frame
oracle whose wait-frame fails. -/
def runningState : XRState :=
  { xrSessionRunning := true, xrShouldQuit := false, viewCount := 2,
    vrSwapchains := some [true, true], pipelineCreated := true, animTime := 0 }

/-- A frame oracle on which every compositor call succeeds. -/
def allOkFrame : FrameOracle :=
  { waitFrameOk := true, shouldRender := true, predictedDisplayTime := 0,
    beginFrameOk := true, locateOk := true,
    acquireOk := fun _ => true, waitImageOk := fun _ => true }

/-- A frame oracle whose `xrWaitFrame` fails. -/
def waitFailFrame : FrameOracle :=
  { allOkFrame with waitFrameOk := false }

/-- Witness for C3: three consecutive wait-frame failures followed by
a fully successful tick, from a running two-view state. -/
theorem waitFrame_failure_skips_ticks_witness :
    (runningState.xrSessionRunning = true) ∧
    (∀ x ∈ [waitFailFrame, waitFailFrame, waitFailFrame], x.waitFrameOk = false) ∧
    (allOkFrame.waitFrameOk = true) ∧
    ((∀ x ∈ [waitFailFrame, waitFailFrame, waitFailFrame],
        RenderFrame runningState x = (runningState, [XRCall.waitFrame])) ∧
      (runFrames runningState [waitFailFrame, waitFailFrame, waitFailFrame]).2.countP
        isBeginFrameCall = 0 ∧
      (runFrames runningState [waitFailFrame, waitFailFrame, waitFailFrame]).2.countP
        isEndFrameCall = 0 ∧
      (runFrames runningState [waitFailFrame, waitFailFrame, waitFailFrame]).1 =
        runningState ∧
      (allOkFrame.beginFrameOk = false →
        (RenderFrame (runFrames runningState
          [waitFailFrame, waitFailFrame, waitFailFrame]).1 allOkFrame).2 =
          [XRCall.waitFrame, XRCall.beginFrame]) ∧
      (allOkFrame.beginFrameOk = true →
        (RenderFrame (runFrames runningState
          [waitFailFrame, waitFailFrame, waitFailFrame]).1 allOkFrame).2.countP
            isBeginFrameCall = 1 ∧
        (RenderFrame (runFrames runningState
          [waitFailFrame, waitFailFrame, waitFailFrame]).1 allOkFrame).2.countP
            isEndFrameCall = 1)) :=
  ⟨rfl, by decide, rfl,
    waitFrame_failure_skips_ticks runningState
      [waitFailFrame, waitFailFrame, waitFailFrame] allOkFrame rfl (by decide) rfl⟩

theorem renderViews_no_endFrame (o : FrameOracle) (l : List Nat) :
    ∀ c ∈ (renderViews o l).1, isEndFrameCall c = false := fun c hc =>
  Bool.eq_false_iff.mpr
    (List.countP_eq_zero.mp (renderViews_countP_endFrame o l) c hc)

theorem firstEndFrame_append (l1 l2 : List XRCall)
    (h : ∀ c ∈ l1, isEndFrameCall c = false) :
    firstEndFrame (l1 ++ l2) = firstEndFrame l2 := by
  induction l1 with
  | nil => simp
  | cons c rest ih =>
    have hc := h c (by simp)
    have hrest : ∀ x ∈ rest, isEndFrameCall x = false := fun x hx => h x (by simp [hx])
    cases c <;> simp [isEndFrameCall] at hc ⊢ <;> exact ih hrest

/-- C4: once begin-frame has succeeded, exactly one end-frame call is
made before the tick ends, carrying the frame's predicted display time
and the fixed opaque blend mode; and on every skip branch (`should
render` false, no views, NULL swapchain pool, or failed view-locate)
it carries zero composition layers. -/
theorem RenderFrame_trace_render (st : XRState) (o : FrameOracle)
    (hrun : st.xrSessionRunning = true) (hwait : o.waitFrameOk = true)
    (hbegin : o.beginFrameOk = true) (hsr : o.shouldRender = true)
    (hvc : 0 < st.viewCount) (hsw : st.vrSwapchains.isSome = true)
    (hloc : o.locateOk = true) :
    (RenderFrame st o).2 =
      ([XRCall.waitFrame, XRCall.beginFrame,
        XRCall.locateViews o.predictedDisplayTime] ++
        (renderViews o (List.range st.viewCount)).1) ++
      [XRCall.endFrame o.predictedDisplayTime XR_ENVIRONMENT_BLEND_MODE_OPAQUE
        [(renderViews o (List.range st.viewCount)).2]] := by
  simp [RenderFrame, hrun, hwait, hbegin, hsr, hvc, hsw, hloc]

theorem RenderFrame_trace_locateFail (st : XRState) (o : FrameOracle)
    (hrun : st.xrSessionRunning = true) (hwait : o.waitFrameOk = true)
    (hbegin : o.beginFrameOk = true) (hsr : o.shouldRender = true)
    (hvc : 0 < st.viewCount) (hsw : st.vrSwapchains.isSome = true)
    (hloc : o.locateOk = false) :
    (RenderFrame st o).2 =
      [XRCall.waitFrame, XRCall.beginFrame,
       XRCall.locateViews o.predictedDisplayTime,
       XRCall.endFrame o.predictedDisplayTime XR_ENVIRONMENT_BLEND_MODE_OPAQUE []] := by
  simp [RenderFrame, hrun, hwait, hbegin, hsr, hvc, hsw, hloc]

theorem RenderFrame_trace_skip (st : XRState) (o : FrameOracle)
    (hrun : st.xrSessionRunning = true) (hwait : o.waitFrameOk = true)
    (hbegin : o.beginFrameOk = true)
    (hskip : ¬(o.shouldRender = true ∧ 0 < st.viewCount ∧ st.vrSwapchains.isSome = true)) :
    (RenderFrame st o).2 =
      [XRCall.waitFrame, XRCall.beginFrame,
       XRCall.endFrame o.predictedDisplayTime XR_ENVIRONMENT_BLEND_MODE_OPAQUE []] := by
  by_cases hsr : o.shouldRender <;>
  by_cases hvc : 0 < st.viewCount <;>
  by_cases hsw : st.vrSwapchains.isSome <;>
  simp_all [RenderFrame]

/-- C4: once begin-frame has succeeded, exactly one end-frame call is
made before the tick ends, carrying the frame's predicted display time
and the fixed opaque blend mode; and on every skip branch (`should
render` false, no views, NULL swapchain pool, or failed view-locate)
it carries zero composition layers. -/
theorem beginFrame_implies_endFrame (st : XRState) (o : FrameOracle)
    (hrun : st.xrSessionRunning = true) (hwait : o.waitFrameOk = true)
    (hbegin : o.beginFrameOk = true) :
    ∃ ls, (RenderFrame st o).2.countP isEndFrameCall = 1 ∧
      firstEndFrame (RenderFrame st o).2 =
        some (o.predictedDisplayTime, XR_ENVIRONMENT_BLEND_MODE_OPAQUE, ls) ∧
      ((o.shouldRender = false ∨ st.viewCount = 0 ∨ st.vrSwapchains = none ∨
          o.locateOk = false) → ls = []) := by
  have hcount := (RenderFrame_protocol_counts st o hrun hwait hbegin).2
  by_cases hgate : o.shouldRender = true ∧ 0 < st.viewCount ∧ st.vrSwapchains.isSome = true
  · obtain ⟨hsr, hvc, hsw⟩ := hgate
    by_cases hloc : o.locateOk
    · refine ⟨[(renderViews o (List.range st.viewCount)).2], hcount, ?_, ?_⟩
      · rw [RenderFrame_trace_render st o hrun hwait hbegin hsr hvc hsw hloc,
          firstEndFrame_append]
        · rfl
        · intro c hc
          rcases List.mem_append.mp hc with h | h
          · simp at h
            rcases h with rfl | rfl | rfl <;> rfl
          · exact renderViews_no_endFrame o _ c h
      · intro h
        rcases h with h | h | h | h
        · simp [h] at hsr
        · omega
        · simp [h] at hsw
        · simp [h] at hloc
    · refine ⟨[], hcount, ?_, fun _ => rfl⟩
      rw [RenderFrame_trace_locateFail st o hrun hwait hbegin hsr hvc hsw
        (Bool.not_eq_true _ |>.mp hloc)]
      rfl
  · refine ⟨[], hcount, ?_, fun _ => rfl⟩
    rw [RenderFrame_trace_skip st o hrun hwait hbegin hgate]
    rfl

/-- Witness for C4 on a skip branch: running two-view state, all calls
succeed but the view-locate fails, so the single end-frame carries
zero layers. -/
theorem beginFrame_implies_endFrame_witness :
    (runningState.xrSessionRunning = true) ∧
    ({ allOkFrame with locateOk := false : FrameOracle }.waitFrameOk = true) ∧
    ({ allOkFrame with locateOk := false : FrameOracle }.beginFrameOk = true) ∧
    (∃ ls, (RenderFrame runningState
        { allOkFrame with locateOk := false }).2.countP isEndFrameCall = 1 ∧
      firstEndFrame (RenderFrame runningState
          { allOkFrame with locateOk := false }).2 =
        some ({ allOkFrame with locateOk := false : FrameOracle }.predictedDisplayTime,
          XR_ENVIRONMENT_BLEND_MODE_OPAQUE, ls) ∧
      (({ allOkFrame with locateOk := false : FrameOracle }.shouldRender = false ∨
          runningState.viewCount = 0 ∨ runningState.vrSwapchains = none ∨
          { allOkFrame with locateOk := false : FrameOracle }.locateOk = false) →
        ls = [])) :=
  ⟨rfl, rfl, rfl,
    beginFrame_implies_endFrame runningState { allOkFrame with locateOk := false }
      rfl rfl rfl⟩

theorem renderView_slot (o : FrameOracle) (i : Nat) :
    (renderView o i).2 = (o.acquireOk i && o.waitImageOk i) := by
  unfold renderView
  by_cases h : o.acquireOk i <;> by_cases h2 : o.waitImageOk i <;> simp [h, h2]

theorem renderViews_slots (o : FrameOracle) : ∀ l : List Nat,
    (renderViews o l).2 = l.map fun j => (renderView o j).2
  | [] => by simp [renderViews]
  | i :: rest => by simp [renderViews, renderViews_slots o rest]

theorem renderView_countP_acquire (o : FrameOracle) (i j : Nat) :
    (renderView o j).1.countP (isAcquireCall i) = if j = i then 1 else 0 := by
  rw [renderView_calls]
  by_cases hji : j = i
  · subst hji
    by_cases h : o.acquireOk j <;> simp [h, isAcquireCall, List.countP_cons]
  · by_cases h : o.acquireOk j <;> simp [h, hji, isAcquireCall, List.countP_cons]

theorem renderViews_countP_acquire (o : FrameOracle) (i : Nat) : ∀ l : List Nat,
    (renderViews o l).1.countP (isAcquireCall i) = l.count i
  | [] => by simp [renderViews]
  | j :: rest => by
    by_cases hji : j = i <;>
      simp [renderViews, List.countP_append, renderView_countP_acquire,
        renderViews_countP_acquire o i rest, List.count_cons, hji] <;>
      omega

theorem count_range (i : Nat) : ∀ n : Nat, (List.range n).count i = if i < n then 1 else 0
  | 0 => by simp
  | n + 1 => by
    rw [List.range_succ, List.count_append, count_range i n]
    rcases Nat.lt_trichotomy i n with h | h | h
    · have h1 : i < n + 1 := Nat.lt_succ_of_lt h
      have h2 : ¬(n = i) := by omega
      simp [h, h1, List.count_cons, h2]
    · subst h
      simp [List.count_cons]
    · have h1 : ¬(i < n) := by omega
      have h2 : ¬(i < n + 1) := by omega
      have h3 : ¬(n = i) := by omega
      simp [h1, h2, h3, List.count_cons]

/-- C6: on a tick that reaches the per-view render loop, per-view
acquire/wait failures do not abort the frame: every view's acquire is
still attempted exactly once whatever happened to the other views,
end-frame is still submitted exactly once with the frame's layer, and
the layer's populated composition-layer slots are exactly the views
that completed both acquire and wait (a view failing either
contributes an unpopulated slot). -/
theorem perView_failure_isolated (st : XRState) (o : FrameOracle)
    (hrun : st.xrSessionRunning = true) (hwait : o.waitFrameOk = true)
    (hbegin : o.beginFrameOk = true) (hsr : o.shouldRender = true)
    (hvc : 0 < st.viewCount) (hsw : st.vrSwapchains.isSome = true)
    (hloc : o.locateOk = true) :
    ∃ slots : List Bool,
      firstEndFrame (RenderFrame st o).2 =
        some (o.predictedDisplayTime, XR_ENVIRONMENT_BLEND_MODE_OPAQUE, [slots]) ∧
      slots.length = st.viewCount ∧
      (∀ i, i < st.viewCount →
        slots.getD i false = (o.acquireOk i && o.waitImageOk i)) ∧
      (∀ i, i < st.viewCount →
        (RenderFrame st o).2.countP (isAcquireCall i) = 1) ∧
      (RenderFrame st o).2.countP isEndFrameCall = 1 := by
  have htr := RenderFrame_trace_render st o hrun hwait hbegin hsr hvc hsw hloc
  refine ⟨(renderViews o (List.range st.viewCount)).2, ?_, ?_, ?_, ?_, ?_⟩
  · rw [htr, firstEndFrame_append]
    · rfl
    · intro c hc
      rcases List.mem_append.mp hc with h | h
      · simp at h
        rcases h with rfl | rfl | rfl <;> rfl
      · exact renderViews_no_endFrame o _ c h
  · rw [renderViews_slots]
    simp
  · intro i hi
    rw [renderViews_slots]
    rw [List.getD_eq_getElem _ _ (by simpa using hi)]
    simp [renderView_slot]
  · intro i hi
    rw [htr]
    simp [List.countP_append, List.countP_cons, isAcquireCall,
      renderViews_countP_acquire, count_range, hi]
  · exact (RenderFrame_protocol_counts st o hrun hwait hbegin).2

/-- A frame oracle on which view 0 fails its acquire and every other
call succeeds. -/
def view0AcquireFailFrame : FrameOracle :=
  { allOkFrame with acquireOk := fun i => !(i == 0) }

/-- Witness for C6: a two-view running state where view 0's acquire
fails; view 1 is still processed and the submitted layer populates
slot 1 only. -/
theorem perView_failure_isolated_witness :
    (runningState.xrSessionRunning = true) ∧
    (view0AcquireFailFrame.waitFrameOk = true) ∧
    (view0AcquireFailFrame.beginFrameOk = true) ∧
    (view0AcquireFailFrame.shouldRender = true) ∧
    (0 < runningState.viewCount) ∧
    (runningState.vrSwapchains.isSome = true) ∧
    (view0AcquireFailFrame.locateOk = true) ∧
    (∃ slots : List Bool,
      firstEndFrame (RenderFrame runningState view0AcquireFailFrame).2 =
        some (view0AcquireFailFrame.predictedDisplayTime,
          XR_ENVIRONMENT_BLEND_MODE_OPAQUE, [slots]) ∧
      slots.length = runningState.viewCount ∧
      (∀ i, i < runningState.viewCount →
        slots.getD i false =
          (view0AcquireFailFrame.acquireOk i && view0AcquireFailFrame.waitImageOk i)) ∧
      (∀ i, i < runningState.viewCount →
        (RenderFrame runningState view0AcquireFailFrame).2.countP (isAcquireCall i) = 1) ∧
      (RenderFrame runningState view0AcquireFailFrame).2.countP isEndFrameCall = 1) :=
  ⟨rfl, rfl, rfl, rfl, by decide, rfl, rfl,
    perView_failure_isolated runningState view0AcquireFailFrame
      rfl rfl rfl rfl (by decide) rfl rfl⟩

/-! ### The session begin/end protocol (C2)

`xrBeginSession` is issued exactly at ready events and `xrEndSession`
exactly at stopping events, so the session-call subsequence of a run's
trace is computed from the event sequence alone; validity of an event
sequence (the compositor never reports ready twice without an
intervening stopping, per the OpenXR session state graph) then yields
the begin/end alternation. -/

/-- The session calls a list of events gives rise to: `xrBeginSession`
at each ready event, `xrEndSession` at each stopping event. -/
def sessionCallsOfEvents : List XREvent → List XRCall
  | [] => []
  | .sessionStateChanged .ready :: rest => XRCall.beginSession :: sessionCallsOfEvents rest
  | .sessionStateChanged .stopping :: rest => XRCall.endSession :: sessionCallsOfEvents rest
  | _ :: rest => sessionCallsOfEvents rest

/-- Validity of a compositor event sequence: no two ready events
without an intervening stopping event (the flag records a ready seen
with no stopping since). -/
def validSeq : List XREvent → Bool → Bool
  | [], _ => true
  | .sessionStateChanged .ready :: rest, flag => !flag && validSeq rest true
  | .sessionStateChanged .stopping :: rest, _ => validSeq rest false
  | _ :: rest, flag => validSeq rest flag

/-- A session-call trace never issues begin-session twice without an
intervening end-session (the flag records an outstanding begin). -/
def beginsSeparated : List XRCall → Bool → Bool
  | [], _ => true
  | XRCall.beginSession :: rest, flag => !flag && beginsSeparated rest true
  | XRCall.endSession :: rest, _ => beginsSeparated rest false
  | _ :: rest, flag => beginsSeparated rest flag

/-- All events drained over a list of ticks, in order. -/
def allEvents (tis : List TickInput) : List XREvent :=
  (tis.map fun ti => ti.events.map Prod.fst).flatten

theorem createViewsGo_no_session (o : SwapchainOracle) : ∀ l : List Nat,
    ∀ c ∈ (createViewsGo o l).2.1, isSessionCall c = false
  | [] => by simp [createViewsGo]
  | i :: rest => by
    intro c hc
    by_cases h : o.createOk i
    · simp [createViewsGo, h] at hc
      rcases hc with rfl | hc
      · rfl
      · exact createViewsGo_no_session o rest c hc
    · simp [createViewsGo, h] at hc
      subst hc
      rfl

theorem CreateSwapchains_filter_session (st : XRState) (o : SwapchainOracle) :
    (CreateSwapchains st o).2.1.filter isSessionCall = [] := by
  unfold CreateSwapchains
  by_cases h1 : o.enumCountOk <;> by_cases h2 : o.enumFillOk <;> simp [h1, h2]
  split_ifs <;> exact createViewsGo_no_session o _

theorem renderViews_filter_session (o : FrameOracle) : ∀ l : List Nat,
    (renderViews o l).1.filter isSessionCall = []
  | [] => by simp [renderViews]
  | i :: rest => by
    rw [renderViews]
    by_cases h : o.acquireOk i <;>
      simp [renderView_calls, h, List.filter_append, isSessionCall,
        renderViews_filter_session o rest]

theorem RenderFrame_filter_session (st : XRState) (o : FrameOracle) :
    (RenderFrame st o).2.filter isSessionCall = [] := by
  unfold RenderFrame
  by_cases hrun : st.xrSessionRunning <;>
  by_cases hwait : o.waitFrameOk <;>
  by_cases hbegin : o.beginFrameOk <;>
  by_cases hsr : o.shouldRender <;>
  by_cases hvc : 0 < st.viewCount <;>
  by_cases hsw : st.vrSwapchains.isSome <;>
  by_cases hloc : o.locateOk <;>
  simp [hrun, hwait, hbegin, hsr, hvc, hsw, hloc, isSessionCall,
    List.filter_append, renderViews_filter_session]

theorem handleEvent_filter_session (st : XRState) (ev : XREvent) (o : EventOracle) :
    (handleEvent st ev o).2.filter isSessionCall = sessionCallsOfEvents [ev] := by
  cases ev with
  | sessionStateChanged k =>
    cases k with
    | ready =>
      by_cases hb : o.beginSessionOk
      · unfold handleEvent
        by_cases hr : (CreateSwapchains { st with xrSessionRunning := true } o.sc).2.2 <;>
          simp [hb, hr, isSessionCall, sessionCallsOfEvents,
            CreateSwapchains_filter_session]
      · simp [handleEvent, hb, isSessionCall, sessionCallsOfEvents]
    | stopping => simp [handleEvent, isSessionCall, sessionCallsOfEvents]
    | exiting => simp [handleEvent, sessionCallsOfEvents]
    | lossPending => simp [handleEvent, sessionCallsOfEvents]
    | otherState => simp [handleEvent, sessionCallsOfEvents]
  | instanceLossPending => simp [handleEvent, sessionCallsOfEvents]
  | otherEvent => simp [handleEvent, sessionCallsOfEvents]

theorem sessionCallsOfEvents_append : ∀ a b : List XREvent,
    sessionCallsOfEvents (a ++ b) = sessionCallsOfEvents a ++ sessionCallsOfEvents b
  | [], _ => rfl
  | e :: a, b => by
    cases e with
    | sessionStateChanged k =>
      cases k <;> simp [sessionCallsOfEvents, sessionCallsOfEvents_append a b]
    | instanceLossPending => simp [sessionCallsOfEvents, sessionCallsOfEvents_append a b]
    | otherEvent => simp [sessionCallsOfEvents, sessionCallsOfEvents_append a b]

theorem HandleXREvents_filter_session (st : XRState) :
    ∀ evs : List (XREvent × EventOracle),
      (HandleXREvents st evs).2.filter isSessionCall =
        sessionCallsOfEvents (evs.map Prod.fst)
  | [] => by simp [HandleXREvents, sessionCallsOfEvents]
  | (ev, o) :: rest => by
    rw [HandleXREvents]
    rw [show (((ev, o) :: rest).map Prod.fst) = ev :: rest.map Prod.fst by simp,
      show (ev :: rest.map Prod.fst) = [ev] ++ rest.map Prod.fst by simp,
      sessionCallsOfEvents_append]
    simp only [List.filter_append]
    rw [handleEvent_filter_session,
      HandleXREvents_filter_session (handleEvent st ev o).1 rest]

theorem tick_filter_session (st : XRState) (ti : TickInput) :
    (tick st ti).2.filter isSessionCall =
      sessionCallsOfEvents (ti.events.map Prod.fst) := by
  unfold tick
  simp only [List.filter_append]
  rw [HandleXREvents_filter_session, RenderFrame_filter_session, List.append_nil]

theorem runTicks_filter_session : ∀ (st : XRState) (tis : List TickInput),
    ∃ E E2 : List XREvent, allEvents tis = E ++ E2 ∧
      (runTicks st tis).2.filter isSessionCall = sessionCallsOfEvents E
  | _, [] => ⟨[], [], rfl, rfl⟩
  | st, ti :: rest => by
    by_cases hq : st.xrShouldQuit
    · exact ⟨[], allEvents (ti :: rest), by simp,
        by simp [runTicks, hq, sessionCallsOfEvents]⟩
    · obtain ⟨E, E2, hE, hf⟩ := runTicks_filter_session (tick st ti).1 rest
      refine ⟨ti.events.map Prod.fst ++ E, E2, ?_, ?_⟩
      · simp [allEvents] at hE ⊢
        simp [hE]
      · rw [runTicks]
        simp only [hq, if_false, List.filter_append, Bool.false_eq_true]
        rw [tick_filter_session, hf, sessionCallsOfEvents_append]

theorem validSeq_append_left : ∀ (E E2 : List XREvent) (f : Bool),
    validSeq (E ++ E2) f = true → validSeq E f = true
  | [], _, _, _ => rfl
  | e :: E, E2, f, h => by
    cases e with
    | sessionStateChanged k =>
      cases k with
      | ready =>
        simp [validSeq] at h ⊢
        exact ⟨h.1, validSeq_append_left E E2 true h.2⟩
      | stopping =>
        simp [validSeq] at h ⊢
        exact validSeq_append_left E E2 false h
      | exiting =>
        simp [validSeq] at h ⊢
        exact validSeq_append_left E E2 f h
      | lossPending =>
        simp [validSeq] at h ⊢
        exact validSeq_append_left E E2 f h
      | otherState =>
        simp [validSeq] at h ⊢
        exact validSeq_append_left E E2 f h
    | instanceLossPending =>
      simp [validSeq] at h ⊢
      exact validSeq_append_left E E2 f h
    | otherEvent =>
      simp [validSeq] at h ⊢
      exact validSeq_append_left E E2 f h

theorem validSeq_beginsSeparated : ∀ (E : List XREvent) (f : Bool),
    validSeq E f = true → beginsSeparated (sessionCallsOfEvents E) f = true
  | [], _, _ => rfl
  | e :: E, f, h => by
    cases e with
    | sessionStateChanged k =>
      cases k with
      | ready =>
        simp [validSeq] at h
        simp [sessionCallsOfEvents, beginsSeparated, h.1]
        exact validSeq_beginsSeparated E true h.2
      | stopping =>
        simp [validSeq] at h
        simp [sessionCallsOfEvents, beginsSeparated]
        exact validSeq_beginsSeparated E false h
      | exiting =>
        simp [validSeq] at h
        simp [sessionCallsOfEvents]
        exact validSeq_beginsSeparated E f h
      | lossPending =>
        simp [validSeq] at h
        simp [sessionCallsOfEvents]
        exact validSeq_beginsSeparated E f h
      | otherState =>
        simp [validSeq] at h
        simp [sessionCallsOfEvents]
        exact validSeq_beginsSeparated E f h
    | instanceLossPending =>
      simp [validSeq] at h
      simp [sessionCallsOfEvents]
      exact validSeq_beginsSeparated E f h
    | otherEvent =>
      simp [validSeq] at h
      simp [sessionCallsOfEvents]
      exact validSeq_beginsSeparated E f h

/-- C2: starting from the initial state, over any tick sequence whose
drained compositor events are valid (no second ready without an
intervening stopping, per the OpenXR session state graph), the
program's trace never issues begin-session twice without an
intervening end-session; and whenever the running flag is false the
frame routine returns before making any compositor call at all (in
particular it never calls wait-frame outside the running state). -/
theorem session_begin_end_protocol (tis : List TickInput)
    (hvalid : validSeq (allEvents tis) false = true) :
    beginsSeparated ((runTicks initialState tis).2.filter isSessionCall) false = true ∧
    (∀ (st : XRState) (o : FrameOracle), st.xrSessionRunning = false →
      (RenderFrame st o).2 = []) := by
  constructor
  · obtain ⟨E, E2, hE, hf⟩ := runTicks_filter_session initialState tis
    rw [hf]
    exact validSeq_beginsSeparated E false
      (validSeq_append_left E E2 false (hE ▸ hvalid))
  · intro st o hrun
    simp [RenderFrame, hrun]

/-- A swapchain oracle on which everything succeeds, reporting two views. -/
def allOkSc : SwapchainOracle :=
  { enumCountOk := true, enumFillOk := true, numViews := 2,
    createOk := fun _ => true, pipelineOk := true }

/-- An event oracle whose begin-session succeeds with `allOkSc`. -/
def allOkEventOracle : EventOracle := { beginSessionOk := true, sc := allOkSc }

/-- Witness tick sequence for C2: ready, then stopping, then ready
again — a valid event sequence that re-readies the session. -/
def c2Ticks : List TickInput :=
  [{ events := [(XREvent.sessionStateChanged SessionStateKind.ready, allOkEventOracle)],
     frame := allOkFrame },
   { events := [(XREvent.sessionStateChanged SessionStateKind.stopping, allOkEventOracle)],
     frame := allOkFrame },
   { events := [(XREvent.sessionStateChanged SessionStateKind.ready, allOkEventOracle)],
     frame := waitFailFrame }]

/-- Witness for C2 on the concrete ready/stopping/ready run. -/
theorem session_begin_end_protocol_witness :
    validSeq (allEvents c2Ticks) false = true ∧
    (beginsSeparated ((runTicks initialState c2Ticks).2.filter isSessionCall) false = true ∧
      (∀ (st : XRState) (o : FrameOracle), st.xrSessionRunning = false →
        (RenderFrame st o).2 = [])) :=
  ⟨by decide, session_begin_end_protocol c2Ticks (by decide)⟩

/-! ### Swapchain-pool creation failure (C5) and re-creation (C7) -/

/-- Is this call `SDL_CreateGPUXRSwapchain`? -/
def isAnyCreateCall : XRCall → Bool
  | .createSwapchain _ => true
  | _ => false

/-- Is this call `SDL_CreateGPUXRSwapchain` for view `i`? -/
def isCreateCallFor (i : Nat) : XRCall → Bool
  | .createSwapchain j => j == i
  | _ => false

theorem RenderFrame_starts_waitFrame (st : XRState) (o : FrameOracle)
    (hrun : st.xrSessionRunning = true) (hwait : o.waitFrameOk = true) :
    ∃ t, (RenderFrame st o).2 = XRCall.waitFrame :: t := by
  unfold RenderFrame
  by_cases hbegin : o.beginFrameOk <;>
  by_cases hsr : o.shouldRender <;>
  by_cases hvc : 0 < st.viewCount <;>
  by_cases hsw : st.vrSwapchains.isSome <;>
  by_cases hloc : o.locateOk <;>
  simp [hrun, hwait, hbegin, hsr, hvc, hsw, hloc]

theorem createViewsGo_entries (o : SwapchainOracle) (k : Nat)
    (hcreate : ∀ j, o.createOk j = decide (j < k)) : ∀ (len s : Nat),
    ((createViewsGo o (List.range' s len)).1 =
      (List.range' s len).map fun j => decide (j < k)) ∧
    (0 < len → (createViewsGo o (List.range' s len)).2.2 = decide (s + len ≤ k))
  | 0, s => by simp [createViewsGo]
  | len + 1, s => by
    have hr : List.range' s (len + 1) = s :: List.range' (s + 1) len := List.range'_succ s len 1
    by_cases hs : s < k
    · have ih := createViewsGo_entries o k hcreate len (s + 1)
      rw [hr]
      constructor
      · simp only [createViewsGo, hcreate s, hs, decide_eq_true_eq, if_true, List.map_cons]
        simp [ih.1, hs]
      · intro _
        simp only [createViewsGo, hcreate s, hs, decide_eq_true_eq, if_true]
        rcases Nat.eq_zero_or_pos len with h0 | hpos
        · subst h0
          simp [createViewsGo]
          omega
        · rw [ih.2 hpos]
          congr 1
          simp only [eq_iff_iff]
          omega
    · rw [hr]
      have hmap : (List.range' (s + 1) len).map (fun j => decide (j < k)) =
          List.replicate len false := by
        rw [List.eq_replicate_iff]
        refine ⟨by simp, fun b hb => ?_⟩
        rcases List.mem_map.mp hb with ⟨j, hj, rfl⟩
        have := List.mem_range'.mp hj
        simp only [decide_eq_false_iff_not]
        omega
      constructor
      · simp only [createViewsGo, hcreate s, decide_eq_true_eq]
        rw [if_neg hs]
        simp [hmap, List.replicate_succ, hs]
      · intro _
        simp only [createViewsGo, hcreate s, decide_eq_true_eq]
        rw [if_neg hs]
        have hnk : ¬(s + (len + 1) ≤ k) := by omega
        simp [hnk]

theorem filterMap_range_all {α : Type} (f : Nat → α) (k : Nat) : ∀ n : Nat, n ≤ k →
    (List.range n).filterMap (fun i => if i < k then some (f i) else none) =
      (List.range n).map f
  | 0, _ => rfl
  | n + 1, h => by
    rw [List.range_succ, List.filterMap_append, List.map_append,
      filterMap_range_all f k n (by omega)]
    have : n < k := by omega
    simp [this]

theorem filterMap_range_lt {α : Type} (f : Nat → α) (k : Nat) : ∀ n : Nat, k ≤ n →
    (List.range n).filterMap (fun i => if i < k then some (f i) else none) =
      (List.range k).map f
  | 0, h => by
    have : k = 0 := by omega
    subst this
    rfl
  | n + 1, h => by
    rcases Nat.lt_or_ge k (n + 1) with hlt | hge
    · rw [List.range_succ, List.filterMap_append, filterMap_range_lt f k n (by omega)]
      have : ¬(n < k) := by omega
      simp [this]
    · have : k = n + 1 := by omega
      subst this
      exact filterMap_range_all f (n + 1) (n + 1) (by omega)

/-- C5 amended: what actually happens when swapchain-pool creation
fails at view `k` (views before `k` succeed, view `k` fails): the
partially created pool is RETAINED in the globals (slot `j` holds a
created swapchain exactly for `j < k`), nothing is torn down at that
point, the quit flag is set, the running flag stays true, and the
frame orchestrator call of the same main-loop iteration still runs
(it is not a no-op: it issues wait-frame against the partial pool).
The main loop then exits before any further tick, and process cleanup
destroys exactly the `k` created swapchains, so no handle leaks at
exit. -/
theorem swapchain_failure_pool_retained (st : XRState) (eo : EventOracle)
    (fo : FrameOracle) (k : Nat)
    (hb : eo.beginSessionOk = true)
    (h1 : eo.sc.enumCountOk = true) (h2 : eo.sc.enumFillOk = true)
    (hcreate : ∀ j, eo.sc.createOk j = decide (j < k))
    (hk : k < eo.sc.numViews)
    (hwait : fo.waitFrameOk = true) :
    (handleEvent st (XREvent.sessionStateChanged SessionStateKind.ready) eo).1.vrSwapchains
        = some ((List.range eo.sc.numViews).map fun j => decide (j < k)) ∧
    (handleEvent st (XREvent.sessionStateChanged SessionStateKind.ready) eo).1.xrShouldQuit
        = true ∧
    (handleEvent st (XREvent.sessionStateChanged SessionStateKind.ready) eo).1.xrSessionRunning
        = true ∧
    (handleEvent st (XREvent.sessionStateChanged SessionStateKind.ready) eo).1.viewCount
        = eo.sc.numViews ∧
    (∃ t, (RenderFrame
        (handleEvent st (XREvent.sessionStateChanged SessionStateKind.ready) eo).1 fo).2
          = XRCall.waitFrame :: t) ∧
    Cleanup (handleEvent st (XREvent.sessionStateChanged SessionStateKind.ready) eo).1
        = (List.range k).map XRCall.destroySwapchain ∧
    (∀ rest, runTicks
        (handleEvent st (XREvent.sessionStateChanged SessionStateKind.ready) eo).1 rest
      = ((handleEvent st (XREvent.sessionStateChanged SessionStateKind.ready) eo).1, [])) := by
  have hgo := createViewsGo_entries eo.sc k hcreate eo.sc.numViews 0
  rw [← List.range_eq_range'] at hgo
  have hfail : (createViewsGo eo.sc (List.range eo.sc.numViews)).2.2 = false := by
    rw [hgo.2 (by omega)]
    simp
    omega
  have hcs : (CreateSwapchains { st with xrSessionRunning := true } eo.sc) =
      ({ st with
          xrSessionRunning := true
          viewCount := eo.sc.numViews
          vrSwapchains := some ((List.range eo.sc.numViews).map fun j => decide (j < k)) },
        (createViewsGo eo.sc (List.range eo.sc.numViews)).2.1, false) := by
    unfold CreateSwapchains
    simp [h1, h2, hfail, hgo.1]
  have hhe : (handleEvent st (XREvent.sessionStateChanged SessionStateKind.ready) eo) =
      ({ st with
          xrSessionRunning := true
          viewCount := eo.sc.numViews
          vrSwapchains := some ((List.range eo.sc.numViews).map fun j => decide (j < k))
          xrShouldQuit := true },
        XRCall.beginSession :: (createViewsGo eo.sc (List.range eo.sc.numViews)).2.1) := by
    unfold handleEvent
    simp [hb, hcs]
  rw [hhe]
  refine ⟨rfl, rfl, rfl, rfl, ?_, ?_, ?_⟩
  · exact RenderFrame_starts_waitFrame _ fo rfl hwait
  · unfold Cleanup
    simp only
    have hcong : ∀ i ∈ List.range eo.sc.numViews,
        (if ((List.range eo.sc.numViews).map fun j => decide (j < k)).getD i false
         then some (XRCall.destroySwapchain i) else none) =
        (if i < k then some (XRCall.destroySwapchain i) else none) := by
      intro i hi
      have hilen : i < ((List.range eo.sc.numViews).map fun j => decide (j < k)).length := by
        simpa using List.mem_range.mp hi
      rw [List.getD_eq_getElem _ _ hilen]
      simp
    rw [List.filterMap_congr hcong]
    exact filterMap_range_lt XRCall.destroySwapchain k eo.sc.numViews (by omega)
  · intro rest
    cases rest <;> simp [runTicks]

/-- Event oracle for the C5 scenario: begin-session succeeds, two
views are enumerated, view 0's swapchain is created, view 1's fails. -/
def c5EventOracle : EventOracle :=
  { beginSessionOk := true,
    sc := { enumCountOk := true, enumFillOk := true, numViews := 2,
            createOk := fun i => decide (i < 1), pipelineOk := true } }

/-- The C5 tick: a ready event whose pool creation fails at view 1,
followed in the same main-loop iteration by the frame call. -/
def c5Tick : TickInput :=
  { events := [(XREvent.sessionStateChanged SessionStateKind.ready, c5EventOracle)],
    frame := allOkFrame }

/-- Counterexample to C5 as stated: after swapchain-pool creation
fails for the second of two views, the pool is NOT discarded — the
partially created pool `[true, false]` is retained in the globals —
and the frame orchestrator is NOT a no-op afterwards: the running
flag is still true and the `RenderFrame` call of the same main-loop
iteration issues wait-frame (and the rest of the frame protocol)
against the partial pool. -/
theorem swapchain_failure_pool_retained_cex :
    (tick initialState c5Tick).1.vrSwapchains = some [true, false] ∧
    (tick initialState c5Tick).1.xrSessionRunning = true ∧
    (tick initialState c5Tick).1.xrShouldQuit = true ∧
    (RenderFrame (HandleXREvents initialState c5Tick.events).1 c5Tick.frame).2.countP
      (fun c => c == XRCall.waitFrame) = 1 := by
  decide

/-- Witness for the amended C5 theorem at the concrete two-view,
fail-at-view-1 oracle. -/
theorem swapchain_failure_pool_retained_witness :
    (c5EventOracle.beginSessionOk = true) ∧
    (c5EventOracle.sc.enumCountOk = true) ∧
    (c5EventOracle.sc.enumFillOk = true) ∧
    (∀ j, c5EventOracle.sc.createOk j = decide (j < 1)) ∧
    (1 < c5EventOracle.sc.numViews) ∧
    (allOkFrame.waitFrameOk = true) ∧
    ((handleEvent initialState (XREvent.sessionStateChanged SessionStateKind.ready)
        c5EventOracle).1.vrSwapchains
      = some ((List.range c5EventOracle.sc.numViews).map fun j => decide (j < 1)) ∧
    (handleEvent initialState (XREvent.sessionStateChanged SessionStateKind.ready)
        c5EventOracle).1.xrShouldQuit = true ∧
    (handleEvent initialState (XREvent.sessionStateChanged SessionStateKind.ready)
        c5EventOracle).1.xrSessionRunning = true ∧
    (handleEvent initialState (XREvent.sessionStateChanged SessionStateKind.ready)
        c5EventOracle).1.viewCount = c5EventOracle.sc.numViews ∧
    (∃ t, (RenderFrame (handleEvent initialState
        (XREvent.sessionStateChanged SessionStateKind.ready) c5EventOracle).1 allOkFrame).2
          = XRCall.waitFrame :: t) ∧
    Cleanup (handleEvent initialState (XREvent.sessionStateChanged SessionStateKind.ready)
        c5EventOracle).1 = (List.range 1).map XRCall.destroySwapchain ∧
    (∀ rest, runTicks (handleEvent initialState
        (XREvent.sessionStateChanged SessionStateKind.ready) c5EventOracle).1 rest
      = ((handleEvent initialState (XREvent.sessionStateChanged SessionStateKind.ready)
          c5EventOracle).1, []))) :=
  ⟨rfl, rfl, rfl, fun _ => rfl, by decide, rfl,
    swapchain_failure_pool_retained initialState c5EventOracle allOkFrame 1
      rfl rfl rfl (fun _ => rfl) (by decide) rfl⟩

theorem createViewsGo_all_ok (o : SwapchainOracle)
    (hcreate : ∀ j, o.createOk j = true) : ∀ l : List Nat,
    createViewsGo o l = (l.map fun _ => true, l.map XRCall.createSwapchain, true)
  | [] => by simp [createViewsGo]
  | i :: rest => by
    simp [createViewsGo, hcreate i, createViewsGo_all_ok o hcreate rest]

theorem range_map_const_true (n : Nat) :
    (List.range n).map (fun _ => true) = List.replicate n true := by
  induction n with
  | zero => rfl
  | succ n ih =>
    rw [List.range_succ, List.map_append, ih, List.replicate_succ']
    rfl

theorem countP_createSwapchain (l : List Nat) :
    l.countP (isAnyCreateCall ∘ XRCall.createSwapchain) = l.length := by
  induction l with
  | nil => rfl
  | cons i rest ih => simp [List.countP_cons, isAnyCreateCall, Function.comp, ih]

/-- C7 amended: pool creation is triggered on EVERY observed ready
transition whose session-begin succeeds, with no check that a pool
already exists: even with a pool in place, a second ready transition
runs the whole creation again — one swapchain-create call per view —
and overwrites the pool pointer with the freshly created pool
(orphaning the previous pool's swapchains). -/
theorem ready_recreates_pool (st : XRState) (eo : EventOracle)
    (hpool : st.vrSwapchains.isSome = true)
    (hb : eo.beginSessionOk = true)
    (h1 : eo.sc.enumCountOk = true) (h2 : eo.sc.enumFillOk = true)
    (hcreate : ∀ j, eo.sc.createOk j = true)
    (hpipe : eo.sc.pipelineOk = true) :
    (handleEvent st (XREvent.sessionStateChanged SessionStateKind.ready) eo).1.vrSwapchains
        = some (List.replicate eo.sc.numViews true) ∧
    (handleEvent st (XREvent.sessionStateChanged SessionStateKind.ready) eo).2.countP
        isAnyCreateCall = eo.sc.numViews := by
  have hgo := createViewsGo_all_ok eo.sc hcreate (List.range eo.sc.numViews)
  have hmap := range_map_const_true eo.sc.numViews
  by_cases hn : 0 < eo.sc.numViews <;> by_cases hpc : st.pipelineCreated <;>
    simp [handleEvent, CreateSwapchains, hb, h1, h2, hgo, hmap, hn, hpc, hpipe,
      List.countP_cons, isAnyCreateCall, countP_createSwapchain]

/-- Witness for the amended C7 theorem: a running state that already
holds a two-view pool receives another ready event with an all-success
oracle; the pool is recreated and replaced. -/
theorem ready_recreates_pool_witness :
    (runningState.vrSwapchains.isSome = true) ∧
    (allOkEventOracle.beginSessionOk = true) ∧
    (allOkEventOracle.sc.enumCountOk = true) ∧
    (allOkEventOracle.sc.enumFillOk = true) ∧
    (∀ j, allOkEventOracle.sc.createOk j = true) ∧
    (allOkEventOracle.sc.pipelineOk = true) ∧
    ((handleEvent runningState (XREvent.sessionStateChanged SessionStateKind.ready)
        allOkEventOracle).1.vrSwapchains
          = some (List.replicate allOkEventOracle.sc.numViews true) ∧
      (handleEvent runningState (XREvent.sessionStateChanged SessionStateKind.ready)
        allOkEventOracle).2.countP isAnyCreateCall = allOkEventOracle.sc.numViews) :=
  ⟨rfl, rfl, rfl, rfl, fun _ => rfl, rfl,
    ready_recreates_pool runningState allOkEventOracle rfl rfl rfl rfl
      (fun _ => rfl) rfl⟩

/-- Counterexample to C7 as stated: on the valid event sequence
ready, stopping, ready — all compositor calls succeeding — the pool
already exists when the second ready transition is observed (it was
not torn down on stopping), yet `CreateSwapchains` runs again: view
0's swapchain-create call appears twice in the program's trace, and
the pool state is overwritten by the second creation. -/
theorem pool_recreated_on_second_ready_cex :
    validSeq (allEvents c2Ticks) false = true ∧
    (runTicks initialState (c2Ticks.take 2)).1.vrSwapchains = some [true, true] ∧
    (runTicks initialState c2Ticks).2.countP (isCreateCallFor 0) = 2 := by
  decide

end SpinningCubes
